import Mathlib

/-!
Shallow embedding of the `assert-within` crate (`src/lib.rs`).

The crate is generic over `num_traits::FloatCore`.  We model the
floating-point carrier exactly (no rounding) as a rational number
extended with the IEEE-754 special values NaN, +inf and -inf, with the
IEEE comparison and arithmetic semantics that `FloatCore` guarantees.
A `panic!` is modelled as returning `Except.error` carrying the failure
kind (one per panic site, following the spec's error taxonomy) together
with the panic message built from the source's format string.
-/

/-- The floating-point carrier: NaN, +infinity, -infinity, or a finite
value (modelled as an exact rational). -/
inductive F where
  | nan : F
  | pinf : F
  | ninf : F
  | fin : ℚ → F
deriving DecidableEq

namespace F

/-- `FloatCore::is_nan`. -/
def isNan : F → Bool
  | nan => true
  | _ => false

/-- IEEE-754 `<` (any comparison with NaN is false). -/
def lt : F → F → Bool
  | nan, _ => false
  | _, nan => false
  | ninf, ninf => false
  | ninf, _ => true
  | pinf, _ => false
  | fin _, pinf => true
  | fin _, ninf => false
  | fin a, fin b => decide (a < b)

/-- IEEE-754 `>`: `a > b` holds exactly when `b < a`. -/
def gt (a b : F) : Bool := lt b a

/-- IEEE-754 negation. -/
def neg : F → F
  | nan => nan
  | pinf => ninf
  | ninf => pinf
  | fin a => fin (-a)

/-- IEEE-754 addition (exact on finite values; `+inf + -inf = NaN`). -/
def add : F → F → F
  | nan, _ => nan
  | _, nan => nan
  | pinf, ninf => nan
  | pinf, _ => pinf
  | ninf, pinf => nan
  | ninf, _ => ninf
  | fin _, pinf => pinf
  | fin _, ninf => ninf
  | fin a, fin b => fin (a + b)

/-- IEEE-754 subtraction, defined as addition of the negation. -/
def sub (a b : F) : F := add a (neg b)

/-- IEEE-754 multiplication (exact on finite values; `inf * 0 = NaN`). -/
def mul : F → F → F
  | nan, _ => nan
  | _, nan => nan
  | pinf, pinf => pinf
  | pinf, ninf => ninf
  | pinf, fin b => if 0 < b then pinf else if b < 0 then ninf else nan
  | ninf, pinf => ninf
  | ninf, ninf => pinf
  | ninf, fin b => if 0 < b then ninf else if b < 0 then pinf else nan
  | fin a, pinf => if 0 < a then pinf else if a < 0 then ninf else nan
  | fin a, ninf => if 0 < a then ninf else if a < 0 then pinf else nan
  | fin a, fin b => fin (a * b)

/-- `FloatCore::zero()`. -/
def zero : F := fin 0

/-- `FloatCore::one()`. -/
def one : F := fin 1

/-- The `Display` rendering of a value (the spec leaves the exact
number-to-string routine out of scope; any injection works for the
message-content theorems, which treat rendered values abstractly). -/
def display : F → String
  | nan => "NaN"
  | pinf => "inf"
  | ninf => "-inf"
  | fin a => toString a

end F

/-- The failure taxonomy of the spec, one kind per panic site family:
invalid tolerance (NaN or negative), NaN operand, below range, above
range. -/
inductive Kind where
  | invalidTolerance : Kind
  | notANumber : Kind
  | belowRange : Kind
  | aboveRange : Kind
deriving DecidableEq

/-- A failure: the kind of the panic site that fired, and the panic
message it formats. -/
structure Failure where
  kind : Kind
  msg : String
deriving DecidableEq

/-- The failure kind of a check result, if it failed. -/
def kindOf : Except Failure Unit → Option Kind
  | .ok _ => none
  | .error f => some f.kind

/-- The common `assert_within failed at {file}:{line}:\n` message head. -/
def msg_head (file : String) (line : Nat) : String :=
  "assert_within failed at " ++ file ++ ":" ++ toString line ++ ":\n"

/-- Message of `panic!("... epsilon was Nan: {eps}\n{context}")`. -/
def msg_eps_nan (file : String) (line : Nat) (epsS context : String) : String :=
  msg_head file line ++ ("epsilon was Nan: " ++ epsS ++ "\n") ++ context

/-- Message of the negative-epsilon panic. -/
def msg_eps_neg (file : String) (line : Nat) (epsS context : String) : String :=
  msg_head file line ++
    ("Epsilon cannot be negative when used with assert_within! macro: " ++ epsS ++ "\n") ++ context

/-- Message of `panic!("...`{val_str}` was Nan: {val}\n{context}")`. -/
def msg_val_nan (file : String) (line : Nat) (val_str valS context : String) : String :=
  msg_head file line ++ ("`" ++ val_str ++ "` was Nan: " ++ valS ++ "\n") ++ context

/-- Message of the NaN-target panic. -/
def msg_target_nan (file : String) (line : Nat) (target_str targetS context : String) : String :=
  msg_head file line ++ ("`" ++ target_str ++ "` was Nan: " ++ targetS ++ "\n") ++ context

/-- Message of the additive below-range panic (including the stray `)`
present in the source format string). -/
def msg_add_below (file : String) (line : Nat)
    (val_str target_str epsS valS targetS context : String) : String :=
  msg_head file line ++
    ("`" ++ val_str ++ "` was less than `" ++ target_str ++ "` - " ++ epsS ++
      ")\nleft:  " ++ valS ++ "\nright: " ++ targetS ++ "\n") ++ context

/-- Message of the additive above-range panic. -/
def msg_add_above (file : String) (line : Nat)
    (val_str target_str epsS valS targetS context : String) : String :=
  msg_head file line ++
    ("`" ++ val_str ++ "` was greater than `" ++ target_str ++ "` + " ++ epsS ++
      ")\nleft:  " ++ valS ++ "\nright: " ++ targetS ++ "\n") ++ context

/-- Message of the relative below-range panic. -/
def msg_mul_below (file : String) (line : Nat)
    (val_str target_str epsS valS targetS context : String) : String :=
  msg_head file line ++
    ("`" ++ val_str ++ "` was less than (1 ± " ++ epsS ++ ") * `" ++
      target_str ++ "`\nleft:  " ++ valS ++ "\nright: " ++ targetS ++ "\n") ++ context

/-- Message of the relative above-range panic. -/
def msg_mul_above (file : String) (line : Nat)
    (val_str target_str epsS valS targetS context : String) : String :=
  msg_head file line ++
    ("`" ++ val_str ++ "` was greater than (1 ± " ++ epsS ++ ") * `" ++
      target_str ++ "`\nleft:  " ++ valS ++ "\nright: " ++ targetS ++ "\n") ++ context

/-- `assert_within_add_impl` from `src/lib.rs` (additive tolerance). -/
def assert_within_add_impl (file : String) (line : Nat)
    (val : F) (val_str : String) (target : F) (target_str : String)
    (eps : F) (context : String) : Except Failure Unit :=
  if eps.isNan then
    .error ⟨.invalidTolerance, msg_eps_nan file line eps.display context⟩
  else if F.lt eps F.zero then
    .error ⟨.invalidTolerance, msg_eps_neg file line eps.display context⟩
  else if val.isNan then
    .error ⟨.notANumber, msg_val_nan file line val_str val.display context⟩
  else if target.isNan then
    .error ⟨.notANumber, msg_target_nan file line target_str target.display context⟩
  else if F.lt val (F.sub target eps) then
    .error ⟨.belowRange,
      msg_add_below file line val_str target_str eps.display val.display target.display context⟩
  else if F.gt val (F.add target eps) then
    .error ⟨.aboveRange,
      msg_add_above file line val_str target_str eps.display val.display target.display context⟩
  else
    .ok ()

/-- `assert_within_mul_impl` from `src/lib.rs` (relative tolerance). -/
def assert_within_mul_impl (file : String) (line : Nat)
    (val : F) (val_str : String) (target : F) (target_str : String)
    (eps : F) (context : String) : Except Failure Unit :=
  if eps.isNan then
    .error ⟨.invalidTolerance, msg_eps_nan file line eps.display context⟩
  else if F.lt eps F.zero then
    .error ⟨.invalidTolerance, msg_eps_neg file line eps.display context⟩
  else if val.isNan then
    .error ⟨.notANumber, msg_val_nan file line val_str val.display context⟩
  else if target.isNan then
    .error ⟨.notANumber, msg_target_nan file line target_str target.display context⟩
  else if F.lt val (F.mul (F.sub F.one eps) target) then
    .error ⟨.belowRange,
      msg_mul_below file line val_str target_str eps.display val.display target.display context⟩
  else if F.gt val (F.mul (F.add F.one eps) target) then
    .error ⟨.aboveRange,
      msg_mul_above file line val_str target_str eps.display val.display target.display context⟩
  else
    .ok ()

/-- The sigil selecting the `assert_within!` arm: `+` or `~`. -/
inductive Sigil where
  | plus : Sigil
  | tilde : Sigil
deriving DecidableEq

/-- What one expansion of the `assert_within!` macro produces: the path
of the callee relative to `$crate`, the stringified operand
expressions, and the rendered trailing format arguments. -/
structure Expansion where
  callee_path : List String
  val_str : String
  target_str : String
  context : String
deriving DecidableEq

/-- The `assert_within!` macro arms from `src/lib.rs`: the `+` arms call
`$crate::test_utils::assert_within_add_impl` and the `~` arms call
`$crate::test_utils::assert_within_mul_impl`, passing
`stringify!($val)`, `stringify!($target)` and the trailing format
arguments (`format_args!("")`, i.e. empty, when absent). -/
def assert_within_expand (s : Sigil) (val_src target_src : String)
    (fmt_args : Option String) : Expansion :=
  match s with
  | .plus => ⟨["test_utils", "assert_within_add_impl"], val_src, target_src, fmt_args.getD ""⟩
  | .tilde => ⟨["test_utils", "assert_within_mul_impl"], val_src, target_src, fmt_args.getD ""⟩

/-- The items defined at the root of the crate (from `src/lib.rs`: the
two impl functions; the macro itself is not addressable as a value). -/
def crate_root_items : List String := ["assert_within_add_impl", "assert_within_mul_impl"]

/-- The modules of the crate: `src/lib.rs` declares none. -/
def crate_modules : List String := []

/-- Whether a `$crate`-relative path resolves in this crate: a bare
item name must be defined at the crate root, a two-segment path needs a
matching module. -/
def path_resolves : List String → Bool
  | [item] => crate_root_items.contains item
  | [m, _] => crate_modules.contains m
  | _ => false

/-- `s` occurs as a contiguous substring of `m`. -/
def ContainsStr (m s : String) : Prop := ∃ a b : String, m = a ++ s ++ b

/-- `m` ends with the string `s`. -/
def EndsWith (m s : String) : Prop := ∃ a : String, m = a ++ s

section Helpers

/-- A check result is `ok` exactly when it has no failure kind. -/
lemma kindOf_eq_none_iff (r : Except Failure Unit) : kindOf r = none ↔ r = .ok () := by
  cases r with
  | ok u => cases u; simp [kindOf]
  | error f => simp [kindOf]

/-- On finite values with a non-negative tolerance, the additive check's
failure kind is determined by the exact-arithmetic range conditions. -/
lemma kindOf_add_fin (file : String) (line : Nat) (vs ts ctx : String)
    (v t e : ℚ) (he : 0 ≤ e) :
    kindOf (assert_within_add_impl file line (F.fin v) vs (F.fin t) ts (F.fin e) ctx) =
      if v < t - e then some Kind.belowRange
      else if t + e < v then some Kind.aboveRange
      else none := by
  simp only [assert_within_add_impl, F.isNan, F.zero, F.lt, F.gt, F.sub, F.neg, F.add,
    decide_eq_true_eq, Bool.false_eq_true, if_false, sub_eq_add_neg]
  rw [if_neg (by simpa using not_lt.mpr he)]
  split_ifs <;> simp [kindOf]

/-- On finite values with a non-negative tolerance, the relative check's
failure kind is determined by the exact-arithmetic range conditions. -/
lemma kindOf_mul_fin (file : String) (line : Nat) (vs ts ctx : String)
    (v t e : ℚ) (he : 0 ≤ e) :
    kindOf (assert_within_mul_impl file line (F.fin v) vs (F.fin t) ts (F.fin e) ctx) =
      if v < (1 - e) * t then some Kind.belowRange
      else if (1 + e) * t < v then some Kind.aboveRange
      else none := by
  simp only [assert_within_mul_impl, F.isNan, F.zero, F.one, F.lt, F.gt, F.sub, F.neg, F.add,
    F.mul, decide_eq_true_eq, Bool.false_eq_true, if_false, sub_eq_add_neg]
  rw [if_neg (by simpa using not_lt.mpr he)]
  split_ifs <;> simp [kindOf]

end Helpers

/-- C1: for the additive check, once the tolerance and NaN validations
pass (finite values, tolerance ≥ 0), success holds exactly when the
measurement lies in the closed interval [target - tolerance,
target + tolerance]; strictly below its lower end the check fails with
`BelowRange`, strictly above its upper end with `AboveRange` (so the
endpoints themselves are accepted). -/
theorem C1_additive_closed_interval (file : String) (line : Nat) (vs ts ctx : String)
    (v t e : ℚ) (he : 0 ≤ e) :
    (assert_within_add_impl file line (F.fin v) vs (F.fin t) ts (F.fin e) ctx = .ok ()
       ↔ t - e ≤ v ∧ v ≤ t + e)
    ∧ (kindOf (assert_within_add_impl file line (F.fin v) vs (F.fin t) ts (F.fin e) ctx)
         = some Kind.belowRange ↔ v < t - e)
    ∧ (kindOf (assert_within_add_impl file line (F.fin v) vs (F.fin t) ts (F.fin e) ctx)
         = some Kind.aboveRange ↔ t + e < v) := by
  have h := kindOf_add_fin file line vs ts ctx v t e he
  refine ⟨?_, ?_, ?_⟩
  · rw [← kindOf_eq_none_iff, h]
    split_ifs with h1 h2
    · simp only [reduceCtorEq, false_iff, not_and, not_le]
      intro h3; linarith
    · simp only [reduceCtorEq, false_iff, not_and, not_le]
      intro h3; linarith
    · simp only [true_iff]
      exact ⟨by linarith, by linarith⟩
  · rw [h]
    split_ifs with h1 h2
    · exact iff_of_true rfl h1
    · simp only [Option.some.injEq, reduceCtorEq, false_iff]; exact h1
    · simp only [reduceCtorEq, false_iff]; exact h1
  · rw [h]
    split_ifs with h1 h2
    · simp only [Option.some.injEq, reduceCtorEq, false_iff, not_lt]
      linarith
    · exact iff_of_true rfl h2
    · simp only [reduceCtorEq, false_iff]; exact h2

/-- Witness for C1 at tolerance 1, target 0, measurement 1 (the upper
boundary, which is accepted). -/
theorem C1_additive_closed_interval_witness :
    (0 : ℚ) ≤ 1 ∧
      (assert_within_add_impl "lib.rs" 63 (F.fin 1) "m" (F.fin 0) "t" (F.fin 1) "" = .ok ()
        ↔ (0 : ℚ) - 1 ≤ 1 ∧ (1 : ℚ) ≤ 0 + 1) :=
  ⟨by norm_num, (C1_additive_closed_interval "lib.rs" 63 "m" "t" "" 1 0 1 (by norm_num)).1⟩

/-- C2 fails as stated: with tolerance 1/2 and measurement = target = -1
the measurement is strictly greater than (1 + tolerance) * target, yet
the check reports `BelowRange` (the below-range test fires first), not
`AboveRange` as the claim's biconditional requires. -/
theorem C2_counterexample :
    F.gt (F.fin (-1)) (F.mul (F.add F.one (F.fin (1/2))) (F.fin (-1))) = true
    ∧ kindOf (assert_within_mul_impl "lib.rs" 113 (F.fin (-1)) "m" (F.fin (-1)) "t"
        (F.fin (1/2)) "") = some Kind.belowRange := by
  constructor
  · simp only [F.gt, F.lt, F.add, F.mul, F.one, decide_eq_true_eq]
    norm_num
  · rw [kindOf_mul_fin "lib.rs" 113 "m" "t" "" (-1) (-1) (1/2) (by norm_num)]
    norm_num

/-- C2 (amended): for the relative check on finite values with
tolerance ≥ 0, the check fails `BelowRange` exactly when
measurement < (1 - tolerance) * target; it fails `AboveRange` exactly
when it is not below range and measurement > (1 + tolerance) * target;
it succeeds otherwise.  The same formula is applied unchanged for
negative targets, with no swapping of the bounds. -/
theorem C2_relative_formula (file : String) (line : Nat) (vs ts ctx : String)
    (v t e : ℚ) (he : 0 ≤ e) :
    (kindOf (assert_within_mul_impl file line (F.fin v) vs (F.fin t) ts (F.fin e) ctx)
       = some Kind.belowRange ↔ v < (1 - e) * t)
    ∧ (kindOf (assert_within_mul_impl file line (F.fin v) vs (F.fin t) ts (F.fin e) ctx)
         = some Kind.aboveRange ↔ ¬(v < (1 - e) * t) ∧ (1 + e) * t < v)
    ∧ (assert_within_mul_impl file line (F.fin v) vs (F.fin t) ts (F.fin e) ctx = .ok ()
         ↔ ¬(v < (1 - e) * t) ∧ ¬((1 + e) * t < v)) := by
  have h := kindOf_mul_fin file line vs ts ctx v t e he
  refine ⟨?_, ?_, ?_⟩
  · rw [h]
    split_ifs with h1 h2
    · exact iff_of_true rfl h1
    · simp only [Option.some.injEq, reduceCtorEq, false_iff]; exact h1
    · simp only [reduceCtorEq, false_iff]; exact h1
  · rw [h]
    split_ifs with h1 h2
    · simp only [Option.some.injEq, reduceCtorEq, false_iff, not_and]
      intro h3; exact absurd h1 h3
    · exact iff_of_true rfl ⟨h1, h2⟩
    · simp only [reduceCtorEq, false_iff, not_and]
      intro _; exact h2
  · rw [← kindOf_eq_none_iff, h]
    split_ifs with h1 h2
    · simp only [reduceCtorEq, false_iff, not_and]
      intro h3; exact absurd h1 h3
    · simp only [reduceCtorEq, false_iff, not_and]
      intro _ h3; exact absurd h2 h3
    · simp only [true_iff]
      exact ⟨h1, h2⟩

/-- Witness for C2 (amended) at tolerance 1/20, measurement 94, target
100: below range. -/
theorem C2_relative_formula_witness :
    (0 : ℚ) ≤ 1/20 ∧
      (kindOf (assert_within_mul_impl "lib.rs" 113 (F.fin 94) "m" (F.fin 100) "t"
          (F.fin (1/20)) "") = some Kind.belowRange ↔ (94 : ℚ) < (1 - 1/20) * 100) :=
  ⟨by norm_num, (C2_relative_formula "lib.rs" 113 "m" "t" "" 94 100 (1/20) (by norm_num)).1⟩

/-- C4 fails as stated: with tolerance 1/20 ≥ 0 and measurement = target
= -1 (not NaN), the relative check does not succeed — it fails with
`BelowRange`, because (1 - tolerance) * target is above the (negative)
target. -/
theorem C4_counterexample :
    (0 : ℚ) ≤ 1/20
    ∧ assert_within_mul_impl "lib.rs" 113 (F.fin (-1)) "m" (F.fin (-1)) "t"
        (F.fin (1/20)) "" ≠ .ok ()
    ∧ kindOf (assert_within_mul_impl "lib.rs" 113 (F.fin (-1)) "m" (F.fin (-1)) "t"
        (F.fin (1/20)) "") = some Kind.belowRange := by
  have hk : kindOf (assert_within_mul_impl "lib.rs" 113 (F.fin (-1)) "m" (F.fin (-1)) "t"
      (F.fin (1/20)) "") = some Kind.belowRange := by
    rw [kindOf_mul_fin "lib.rs" 113 "m" "t" "" (-1) (-1) (1/20) (by norm_num)]
    norm_num
  refine ⟨by norm_num, ?_, hk⟩
  intro h
  rw [h] at hk
  simp [kindOf] at hk

/-- C4 (amended): for every tolerance ≥ 0 (neither NaN nor negative —
infinity included) and every non-NaN target, with measurement equal to
the target the additive check succeeds; the relative check also
succeeds provided the target is not negative. -/
theorem C4_equal_measurement (file : String) (line : Nat) (vs ts ctx : String)
    (target eps : F) (he1 : eps.isNan = false) (he2 : F.lt eps F.zero = false)
    (ht : target.isNan = false) :
    assert_within_add_impl file line target vs target ts eps ctx = .ok ()
    ∧ (F.lt target F.zero = false →
        assert_within_mul_impl file line target vs target ts eps ctx = .ok ()) := by
  cases eps with
  | nan => simp [F.isNan] at he1
  | ninf => simp [F.lt, F.zero] at he2
  | pinf =>
    cases target with
    | nan => simp [F.isNan] at ht
    | pinf => exact ⟨rfl, fun _ => rfl⟩
    | ninf =>
      refine ⟨rfl, fun h => ?_⟩
      simp [F.lt, F.zero] at h
    | fin q =>
      refine ⟨rfl, fun h => ?_⟩
      have hq : 0 ≤ q := not_lt.mp (by simpa [F.lt, F.zero] using h)
      rcases hq.lt_or_eq with hq' | hq'
      · simp [assert_within_mul_impl, F.isNan, F.lt, F.gt, F.zero, F.one, F.sub, F.neg,
          F.add, F.mul, hq', hq'.not_lt]
      · simp [assert_within_mul_impl, F.isNan, F.lt, F.gt, F.zero, F.one, F.sub, F.neg,
          F.add, F.mul, ← hq']
  | fin e =>
    have he : 0 ≤ e := not_lt.mp (by simpa [F.lt, F.zero] using he2)
    cases target with
    | nan => simp [F.isNan] at ht
    | pinf =>
      refine ⟨?_, fun _ => ?_⟩
      · simp [assert_within_add_impl, F.isNan, F.lt, F.gt, F.zero, F.sub, F.neg, F.add,
          he.not_lt]
      · rcases lt_trichotomy (0 : ℚ) (1 + -e) with h | h | h
        · simp [assert_within_mul_impl, F.isNan, F.lt, F.gt, F.zero, F.one, F.sub, F.neg,
            F.add, F.mul, h, he.not_lt, (by linarith : (0 : ℚ) < 1 + e)]
        · simp [assert_within_mul_impl, F.isNan, F.lt, F.gt, F.zero, F.one, F.sub, F.neg,
            F.add, F.mul, ← h, he.not_lt, (by linarith : (0 : ℚ) < 1 + e)]
        · simp [assert_within_mul_impl, F.isNan, F.lt, F.gt, F.zero, F.one, F.sub, F.neg,
            F.add, F.mul, h, he.not_lt, (by linarith : ¬ (0 : ℚ) < 1 + -e),
            (by linarith : (0 : ℚ) < 1 + e)]
    | ninf =>
      refine ⟨?_, fun h => ?_⟩
      · simp [assert_within_add_impl, F.isNan, F.lt, F.gt, F.zero, F.sub, F.neg, F.add,
          he.not_lt]
      · simp [F.lt, F.zero] at h
    | fin q =>
      constructor
      · rw [← kindOf_eq_none_iff, kindOf_add_fin file line vs ts ctx q q e he,
          if_neg (by linarith), if_neg (by linarith)]
      · intro h
        have hq : 0 ≤ q := not_lt.mp (by simpa [F.lt, F.zero] using h)
        rw [← kindOf_eq_none_iff, kindOf_mul_fin file line vs ts ctx q q e he,
          if_neg (by nlinarith), if_neg (by nlinarith)]

/-- Witness for C4 (amended) at tolerance 2, target 5. -/
theorem C4_equal_measurement_witness :
    (F.fin 2).isNan = false ∧ F.lt (F.fin 2) F.zero = false
    ∧ (F.fin 5).isNan = false ∧ F.lt (F.fin 5) F.zero = false
    ∧ assert_within_add_impl "lib.rs" 63 (F.fin 5) "m" (F.fin 5) "t" (F.fin 2) "" = .ok ()
    ∧ assert_within_mul_impl "lib.rs" 113 (F.fin 5) "m" (F.fin 5) "t" (F.fin 2) "" = .ok () :=
  ⟨rfl, by simp [F.lt, F.zero], rfl, by simp [F.lt, F.zero],
    (C4_equal_measurement "lib.rs" 63 "m" "t" "" (F.fin 5) (F.fin 2) rfl
      (by simp [F.lt, F.zero]) rfl).1,
    (C4_equal_measurement "lib.rs" 113 "m" "t" "" (F.fin 5) (F.fin 2) rfl
      (by simp [F.lt, F.zero]) rfl).2 (by simp [F.lt, F.zero])⟩

section StringHelpers

/-- Substring containment survives appending on the right. -/
lemma ContainsStr.append_right {m s : String} (h : ContainsStr m s) (x : String) :
    ContainsStr (m ++ x) s := by
  obtain ⟨a, b, rfl⟩ := h
  exact ⟨a, b ++ x, by simp [String.append_assoc]⟩

/-- Substring containment survives appending on the left. -/
lemma ContainsStr.append_left {m s : String} (h : ContainsStr m s) (x : String) :
    ContainsStr (x ++ m) s := by
  obtain ⟨a, b, rfl⟩ := h
  exact ⟨x ++ a, b, by simp [String.append_assoc]⟩

/-- The message head contains the `{file}:{line}` site identifier. -/
lemma containsStr_msg_head (file : String) (line : Nat) :
    ContainsStr (msg_head file line) (file ++ ":" ++ toString line) :=
  ⟨"assert_within failed at ", ":\n", by simp [msg_head, String.append_assoc]⟩

/-- Site containment for a message of shape `msg_head ++ body ++ ctx`. -/
lemma containsStr_site (file : String) (line : Nat) (body ctx : String) :
    ContainsStr (msg_head file line ++ body ++ ctx) (file ++ ":" ++ toString line) :=
  ((containsStr_msg_head file line).append_right body).append_right ctx

end StringHelpers

/-- C5: whenever the tolerance is NaN or negative, both checks fail with
kind `InvalidTolerance`, whatever the measurement and target are (they
may even be equal). -/
theorem C5_invalid_tolerance (file : String) (line : Nat)
    (val : F) (vs : String) (target : F) (ts : String) (eps : F) (ctx : String)
    (h : eps.isNan = true ∨ F.lt eps F.zero = true) :
    kindOf (assert_within_add_impl file line val vs target ts eps ctx)
      = some Kind.invalidTolerance
    ∧ kindOf (assert_within_mul_impl file line val vs target ts eps ctx)
      = some Kind.invalidTolerance := by
  rcases h with h | h
  · constructor <;> simp [assert_within_add_impl, assert_within_mul_impl, h, kindOf]
  · have hn : eps.isNan = false := by
      cases eps <;> simp_all [F.isNan, F.lt, F.zero]
    constructor <;> simp [assert_within_add_impl, assert_within_mul_impl, h, hn, kindOf]

/-- Witness for C5: NaN tolerance with measurement = target = 1. -/
theorem C5_invalid_tolerance_witness :
    (F.nan.isNan = true ∨ F.lt F.nan F.zero = true)
    ∧ kindOf (assert_within_add_impl "lib.rs" 43 (F.fin 1) "m" (F.fin 1) "t" F.nan "")
        = some Kind.invalidTolerance
    ∧ kindOf (assert_within_mul_impl "lib.rs" 93 (F.fin 1) "m" (F.fin 1) "t" F.nan "")
        = some Kind.invalidTolerance :=
  ⟨Or.inl rfl,
    (C5_invalid_tolerance "lib.rs" 43 (F.fin 1) "m" (F.fin 1) "t" F.nan "" (Or.inl rfl)).1,
    (C5_invalid_tolerance "lib.rs" 93 (F.fin 1) "m" (F.fin 1) "t" F.nan "" (Or.inl rfl)).2⟩

/-- C7: additive boundary behaviour on finite values with tolerance
e ≥ 0: `t - e` and `t + e` are accepted, while overshooting the lower
boundary by any δ > 0 yields `BelowRange` and overshooting the upper
boundary yields `AboveRange`. -/
theorem C7_additive_boundaries (file : String) (line : Nat) (vs ts ctx : String)
    (t e d : ℚ) (he : 0 ≤ e) (hd : 0 < d) :
    assert_within_add_impl file line (F.fin (t - e)) vs (F.fin t) ts (F.fin e) ctx = .ok ()
    ∧ kindOf (assert_within_add_impl file line (F.fin (t - e - d)) vs (F.fin t) ts
        (F.fin e) ctx) = some Kind.belowRange
    ∧ assert_within_add_impl file line (F.fin (t + e)) vs (F.fin t) ts (F.fin e) ctx = .ok ()
    ∧ kindOf (assert_within_add_impl file line (F.fin (t + e + d)) vs (F.fin t) ts
        (F.fin e) ctx) = some Kind.aboveRange := by
  refine ⟨?_, ?_, ?_, ?_⟩
  · rw [← kindOf_eq_none_iff, kindOf_add_fin file line vs ts ctx (t - e) t e he,
      if_neg (by linarith), if_neg (by linarith)]
  · rw [kindOf_add_fin file line vs ts ctx (t - e - d) t e he, if_pos (by linarith)]
  · rw [← kindOf_eq_none_iff, kindOf_add_fin file line vs ts ctx (t + e) t e he,
      if_neg (by linarith), if_neg (by linarith)]
  · rw [kindOf_add_fin file line vs ts ctx (t + e + d) t e he, if_neg (by linarith),
      if_pos (by linarith)]

/-- Witness for C7 at target 10, tolerance 2, δ = 1. -/
theorem C7_additive_boundaries_witness :
    (0 : ℚ) ≤ 2 ∧ (0 : ℚ) < 1
    ∧ assert_within_add_impl "lib.rs" 63 (F.fin (10 - 2)) "m" (F.fin 10) "t" (F.fin 2) ""
        = .ok ()
    ∧ kindOf (assert_within_add_impl "lib.rs" 63 (F.fin (10 - 2 - 1)) "m" (F.fin 10) "t"
        (F.fin 2) "") = some Kind.belowRange :=
  ⟨by norm_num, by norm_num,
    (C7_additive_boundaries "lib.rs" 63 "m" "t" "" 10 2 1 (by norm_num) (by norm_num)).1,
    (C7_additive_boundaries "lib.rs" 63 "m" "t" "" 10 2 1 (by norm_num) (by norm_num)).2.1⟩

/-- The NaN-measurement message contains the measurement's label. -/
lemma containsStr_val_nan_label (file : String) (line : Nat) (vstr valS ctx : String) :
    ContainsStr (msg_val_nan file line vstr valS ctx) vstr := by
  have h : ContainsStr ("`" ++ vstr ++ "` was Nan: " ++ valS ++ "\n") vstr :=
    ⟨"`", "` was Nan: " ++ valS ++ "\n", by simp [String.append_assoc]⟩
  exact (h.append_left (msg_head file line)).append_right ctx

/-- The NaN-target message contains the target's label. -/
lemma containsStr_target_nan_label (file : String) (line : Nat) (tstr targetS ctx : String) :
    ContainsStr (msg_target_nan file line tstr targetS ctx) tstr := by
  have h : ContainsStr ("`" ++ tstr ++ "` was Nan: " ++ targetS ++ "\n") tstr :=
    ⟨"`", "` was Nan: " ++ targetS ++ "\n", by simp [String.append_assoc]⟩
  exact (h.append_left (msg_head file line)).append_right ctx

/-- C3: both checks test their conditions in the fixed order
(tolerance NaN, tolerance negative, measurement NaN, target NaN, below
range, above range, success), and the first violated condition
determines the reported kind: each conjunct assumes all earlier
conditions hold and derives the outcome from the current one alone,
later conditions notwithstanding. -/
theorem C3_first_violation_wins (file : String) (line : Nat)
    (val : F) (vs : String) (target : F) (ts : String) (eps : F) (ctx : String) :
    (eps.isNan = true →
      kindOf (assert_within_add_impl file line val vs target ts eps ctx)
          = some Kind.invalidTolerance
        ∧ kindOf (assert_within_mul_impl file line val vs target ts eps ctx)
          = some Kind.invalidTolerance)
    ∧ (eps.isNan = false → F.lt eps F.zero = true →
      kindOf (assert_within_add_impl file line val vs target ts eps ctx)
          = some Kind.invalidTolerance
        ∧ kindOf (assert_within_mul_impl file line val vs target ts eps ctx)
          = some Kind.invalidTolerance)
    ∧ (eps.isNan = false → F.lt eps F.zero = false → val.isNan = true →
      (∃ f, assert_within_add_impl file line val vs target ts eps ctx = .error f
          ∧ f.kind = Kind.notANumber ∧ ContainsStr f.msg vs)
        ∧ (∃ f, assert_within_mul_impl file line val vs target ts eps ctx = .error f
          ∧ f.kind = Kind.notANumber ∧ ContainsStr f.msg vs))
    ∧ (eps.isNan = false → F.lt eps F.zero = false → val.isNan = false → target.isNan = true →
      (∃ f, assert_within_add_impl file line val vs target ts eps ctx = .error f
          ∧ f.kind = Kind.notANumber ∧ ContainsStr f.msg ts)
        ∧ (∃ f, assert_within_mul_impl file line val vs target ts eps ctx = .error f
          ∧ f.kind = Kind.notANumber ∧ ContainsStr f.msg ts))
    ∧ (eps.isNan = false → F.lt eps F.zero = false → val.isNan = false → target.isNan = false →
      (F.lt val (F.sub target eps) = true →
        kindOf (assert_within_add_impl file line val vs target ts eps ctx)
          = some Kind.belowRange)
      ∧ (F.lt val (F.sub target eps) = false → F.gt val (F.add target eps) = true →
        kindOf (assert_within_add_impl file line val vs target ts eps ctx)
          = some Kind.aboveRange)
      ∧ (F.lt val (F.sub target eps) = false → F.gt val (F.add target eps) = false →
        assert_within_add_impl file line val vs target ts eps ctx = .ok ())
      ∧ (F.lt val (F.mul (F.sub F.one eps) target) = true →
        kindOf (assert_within_mul_impl file line val vs target ts eps ctx)
          = some Kind.belowRange)
      ∧ (F.lt val (F.mul (F.sub F.one eps) target) = false →
          F.gt val (F.mul (F.add F.one eps) target) = true →
        kindOf (assert_within_mul_impl file line val vs target ts eps ctx)
          = some Kind.aboveRange)
      ∧ (F.lt val (F.mul (F.sub F.one eps) target) = false →
          F.gt val (F.mul (F.add F.one eps) target) = false →
        assert_within_mul_impl file line val vs target ts eps ctx = .ok ())) := by
  refine ⟨?_, ?_, ?_, ?_, ?_⟩
  · intro h
    constructor <;> simp [assert_within_add_impl, assert_within_mul_impl, h, kindOf]
  · intro h1 h2
    constructor <;> simp [assert_within_add_impl, assert_within_mul_impl, h1, h2, kindOf]
  · intro h1 h2 h3
    constructor
    · refine ⟨⟨Kind.notANumber, msg_val_nan file line vs val.display ctx⟩, ?_, rfl, ?_⟩
      · simp [assert_within_add_impl, h1, h2, h3]
      · exact containsStr_val_nan_label file line vs val.display ctx
    · refine ⟨⟨Kind.notANumber, msg_val_nan file line vs val.display ctx⟩, ?_, rfl, ?_⟩
      · simp [assert_within_mul_impl, h1, h2, h3]
      · exact containsStr_val_nan_label file line vs val.display ctx
  · intro h1 h2 h3 h4
    constructor
    · refine ⟨⟨Kind.notANumber, msg_target_nan file line ts target.display ctx⟩, ?_, rfl, ?_⟩
      · simp [assert_within_add_impl, h1, h2, h3, h4]
      · exact containsStr_target_nan_label file line ts target.display ctx
    · refine ⟨⟨Kind.notANumber, msg_target_nan file line ts target.display ctx⟩, ?_, rfl, ?_⟩
      · simp [assert_within_mul_impl, h1, h2, h3, h4]
      · exact containsStr_target_nan_label file line ts target.display ctx
  · intro h1 h2 h3 h4
    refine ⟨?_, ?_, ?_, ?_, ?_, ?_⟩
    · intro hb
      simp [assert_within_add_impl, h1, h2, h3, h4, hb, kindOf]
    · intro hb ha
      simp [assert_within_add_impl, h1, h2, h3, h4, hb, ha, kindOf]
    · intro hb ha
      simp [assert_within_add_impl, h1, h2, h3, h4, hb, ha]
    · intro hb
      simp [assert_within_mul_impl, h1, h2, h3, h4, hb, kindOf]
    · intro hb ha
      simp [assert_within_mul_impl, h1, h2, h3, h4, hb, ha, kindOf]
    · intro hb ha
      simp [assert_within_mul_impl, h1, h2, h3, h4, hb, ha]

/-- Witness for C3: a NaN tolerance (with NaN measurement and target,
which would trip later checks) is reported as `InvalidTolerance` by both
checks. -/
theorem C3_first_violation_wins_witness :
    F.nan.isNan = true
    ∧ kindOf (assert_within_add_impl "lib.rs" 43 F.nan "m" F.nan "t" F.nan "")
        = some Kind.invalidTolerance
    ∧ kindOf (assert_within_mul_impl "lib.rs" 43 F.nan "m" F.nan "t" F.nan "")
        = some Kind.invalidTolerance :=
  ⟨rfl,
    ((C3_first_violation_wins "lib.rs" 43 F.nan "m" F.nan "t" F.nan "").1 rfl).1,
    ((C3_first_violation_wins "lib.rs" 43 F.nan "m" F.nan "t" F.nan "").1 rfl).2⟩

/-- C8: with tolerance ≈ 0.05, measurement ≈ 94.9 and target ≈ 100 —
allowing each input, and the computed bound (1 - tolerance) * target,
to deviate by up to 2⁻²⁰, which absorbs any double-precision rounding
of those decimal constants — the relative check fails with
`BelowRange`, and the measurement is below every such bound. -/
theorem C8_relative_scenario (file : String) (line : Nat) (vs ts ctx : String)
    (e v t : ℚ)
    (he : |e - 1/20| ≤ 1/1048576) (hv : |v - 949/10| ≤ 1/1048576)
    (ht : |t - 100| ≤ 1/1048576) :
    kindOf (assert_within_mul_impl file line (F.fin v) vs (F.fin t) ts (F.fin e) ctx)
      = some Kind.belowRange
    ∧ ∀ b : ℚ, |b - (1 - e) * t| ≤ 1/1048576 → v < b := by
  rw [abs_le] at he hv ht
  have he0 : 0 ≤ e := by linarith [he.1]
  have hprod : (19/20 - 1/1048576 : ℚ) * (100 - 1/1048576) ≤ (1 - e) * t :=
    mul_le_mul (by linarith [he.2]) (by linarith [ht.1]) (by norm_num) (by linarith [he.2])
  have hkey : v + 1/1048576 < (1 - e) * t := by nlinarith [hv.2]
  constructor
  · rw [kindOf_mul_fin file line vs ts ctx v t e he0, if_pos (by linarith)]
  · intro b hb
    rw [abs_le] at hb
    linarith [hb.1]

/-- Witness for C8 at the exact decimal values 0.05, 94.9, 100. -/
theorem C8_relative_scenario_witness :
    |((1:ℚ)/20) - 1/20| ≤ 1/1048576 ∧ |((949:ℚ)/10) - 949/10| ≤ 1/1048576
    ∧ |((100:ℚ)) - 100| ≤ 1/1048576
    ∧ kindOf (assert_within_mul_impl "lib.rs" 113 (F.fin (949/10)) "m" (F.fin 100) "t"
        (F.fin (1/20)) "") = some Kind.belowRange :=
  ⟨by norm_num, by norm_num, by norm_num,
    (C8_relative_scenario "lib.rs" 113 "m" "t" "" (1/20) (949/10) 100
      (by norm_num) (by norm_num) (by norm_num)).1⟩

/-- C10: a tolerance of +∞ passes the tolerance validation of both
checks (it is neither NaN nor negative, and neither check can report
`InvalidTolerance` for it), and the additive check with infinite
tolerance succeeds for every non-NaN measurement and target. -/
theorem C10_infinite_tolerance :
    F.pinf.isNan = false
    ∧ F.lt F.pinf F.zero = false
    ∧ (∀ (file : String) (line : Nat) (val : F) (vs : String) (target : F) (ts ctx : String),
        val.isNan = false → target.isNan = false →
        assert_within_add_impl file line val vs target ts F.pinf ctx = .ok ())
    ∧ (∀ (file : String) (line : Nat) (val : F) (vs : String) (target : F) (ts ctx : String),
        kindOf (assert_within_mul_impl file line val vs target ts F.pinf ctx)
          ≠ some Kind.invalidTolerance) := by
  refine ⟨rfl, rfl, ?_, ?_⟩
  · intro file line val vs target ts ctx hv ht
    cases val <;> cases target <;>
      simp_all [assert_within_add_impl, F.isNan, F.lt, F.gt, F.zero, F.sub, F.neg, F.add]
  · intro file line val vs target ts ctx
    unfold assert_within_mul_impl
    split_ifs <;> simp_all [kindOf, F.isNan, F.lt, F.zero]

/-- Witness for C10: infinite tolerance accepts measurement 3 against
target 0. -/
theorem C10_infinite_tolerance_witness :
    (F.fin 3).isNan = false ∧ (F.fin 0).isNan = false
    ∧ assert_within_add_impl "lib.rs" 63 (F.fin 3) "m" (F.fin 0) "t" F.pinf "" = .ok () :=
  ⟨rfl, rfl,
    C10_infinite_tolerance.2.2.1 "lib.rs" 63 (F.fin 3) "m" (F.fin 0) "t" "" rfl rfl⟩

/-- Site containment and context-suffix for messages shaped
`msg_head ++ body ++ ctx` (every panic message has this shape). -/
lemma site_and_ends (file : String) (line : Nat) (body ctx : String) :
    ContainsStr (msg_head file line ++ body ++ ctx) (file ++ ":" ++ toString line)
    ∧ EndsWith (msg_head file line ++ body ++ ctx) ctx :=
  ⟨containsStr_site file line body ctx, ⟨msg_head file line ++ body, rfl⟩⟩

/-- C9: every failure message of either check contains the `file:line`
site identifier and ends with the caller-supplied context string; and
each panic message contains its kind's natural-language description,
the label(s) of the implicated operand(s) and the rendered value(s) of
the relevant operands (the tolerance messages show the tolerance's
value; the out-of-range messages show measurement and target as
`left:`/`right:` lines). -/
theorem C9_failure_messages (file : String) (line : Nat) :
    (∀ (val : F) (vs : String) (target : F) (ts : String) (eps : F) (ctx : String) (f : Failure),
      assert_within_add_impl file line val vs target ts eps ctx = .error f →
        ContainsStr f.msg (file ++ ":" ++ toString line) ∧ EndsWith f.msg ctx)
    ∧ (∀ (val : F) (vs : String) (target : F) (ts : String) (eps : F) (ctx : String) (f : Failure),
      assert_within_mul_impl file line val vs target ts eps ctx = .error f →
        ContainsStr f.msg (file ++ ":" ++ toString line) ∧ EndsWith f.msg ctx)
    ∧ (∀ epsS ctx : String,
        ContainsStr (msg_eps_nan file line epsS ctx) "was Nan"
        ∧ ContainsStr (msg_eps_nan file line epsS ctx) epsS)
    ∧ (∀ epsS ctx : String,
        ContainsStr (msg_eps_neg file line epsS ctx) "cannot be negative"
        ∧ ContainsStr (msg_eps_neg file line epsS ctx) epsS)
    ∧ (∀ vstr valS ctx : String,
        ContainsStr (msg_val_nan file line vstr valS ctx) ("`" ++ vstr ++ "` was Nan")
        ∧ ContainsStr (msg_val_nan file line vstr valS ctx) valS)
    ∧ (∀ tstr targetS ctx : String,
        ContainsStr (msg_target_nan file line tstr targetS ctx) ("`" ++ tstr ++ "` was Nan")
        ∧ ContainsStr (msg_target_nan file line tstr targetS ctx) targetS)
    ∧ (∀ vstr tstr epsS valS targetS ctx : String,
        ContainsStr (msg_add_below file line vstr tstr epsS valS targetS ctx)
          ("`" ++ vstr ++ "` was less than `" ++ tstr ++ "` - " ++ epsS)
        ∧ ContainsStr (msg_add_below file line vstr tstr epsS valS targetS ctx)
          ("left:  " ++ valS ++ "\nright: " ++ targetS))
    ∧ (∀ vstr tstr epsS valS targetS ctx : String,
        ContainsStr (msg_add_above file line vstr tstr epsS valS targetS ctx)
          ("`" ++ vstr ++ "` was greater than `" ++ tstr ++ "` + " ++ epsS)
        ∧ ContainsStr (msg_add_above file line vstr tstr epsS valS targetS ctx)
          ("left:  " ++ valS ++ "\nright: " ++ targetS))
    ∧ (∀ vstr tstr epsS valS targetS ctx : String,
        ContainsStr (msg_mul_below file line vstr tstr epsS valS targetS ctx)
          ("`" ++ vstr ++ "` was less than (1 ± " ++ epsS ++ ") * `" ++ tstr ++ "`")
        ∧ ContainsStr (msg_mul_below file line vstr tstr epsS valS targetS ctx)
          ("left:  " ++ valS ++ "\nright: " ++ targetS))
    ∧ (∀ vstr tstr epsS valS targetS ctx : String,
        ContainsStr (msg_mul_above file line vstr tstr epsS valS targetS ctx)
          ("`" ++ vstr ++ "` was greater than (1 ± " ++ epsS ++ ") * `" ++ tstr ++ "`")
        ∧ ContainsStr (msg_mul_above file line vstr tstr epsS valS targetS ctx)
          ("left:  " ++ valS ++ "\nright: " ++ targetS)) := by
  refine ⟨?_, ?_, ?_, ?_, ?_, ?_, ?_, ?_, ?_, ?_⟩
  · intro val vs target ts eps ctx f hf
    unfold assert_within_add_impl at hf
    split_ifs at hf <;> injection hf with h <;> subst h <;>
      exact site_and_ends file line _ ctx
  · intro val vs target ts eps ctx f hf
    unfold assert_within_mul_impl at hf
    split_ifs at hf <;> injection hf with h <;> subst h <;>
      exact site_and_ends file line _ ctx
  · intro epsS ctx
    exact ⟨⟨msg_head file line ++ "epsilon ", ": " ++ epsS ++ "\n" ++ ctx,
        by simp [msg_eps_nan, String.append_assoc]; try rfl⟩,
      ⟨msg_head file line ++ "epsilon was Nan: ", "\n" ++ ctx,
        by simp [msg_eps_nan, String.append_assoc]; try rfl⟩⟩
  · intro epsS ctx
    exact ⟨⟨msg_head file line ++ "Epsilon ",
        " when used with assert_within! macro: " ++ epsS ++ "\n" ++ ctx,
        by simp [msg_eps_neg, String.append_assoc]; try rfl⟩,
      ⟨msg_head file line ++ "Epsilon cannot be negative when used with assert_within! macro: ",
        "\n" ++ ctx, by simp [msg_eps_neg, String.append_assoc]; try rfl⟩⟩
  · intro vstr valS ctx
    exact ⟨⟨msg_head file line, ": " ++ valS ++ "\n" ++ ctx,
        by simp [msg_val_nan, String.append_assoc]; try rfl⟩,
      ⟨msg_head file line ++ "`" ++ vstr ++ "` was Nan: ", "\n" ++ ctx,
        by simp [msg_val_nan, String.append_assoc]; try rfl⟩⟩
  · intro tstr targetS ctx
    exact ⟨⟨msg_head file line, ": " ++ targetS ++ "\n" ++ ctx,
        by simp [msg_target_nan, String.append_assoc]; try rfl⟩,
      ⟨msg_head file line ++ "`" ++ tstr ++ "` was Nan: ", "\n" ++ ctx,
        by simp [msg_target_nan, String.append_assoc]; try rfl⟩⟩
  · intro vstr tstr epsS valS targetS ctx
    exact ⟨⟨msg_head file line,
        ")\nleft:  " ++ valS ++ "\nright: " ++ targetS ++ "\n" ++ ctx,
        by simp [msg_add_below, String.append_assoc]; try rfl⟩,
      ⟨msg_head file line ++ "`" ++ vstr ++ "` was less than `" ++ tstr ++ "` - " ++ epsS
          ++ ")\n", "\n" ++ ctx, by simp [msg_add_below, String.append_assoc]; try rfl⟩⟩
  · intro vstr tstr epsS valS targetS ctx
    exact ⟨⟨msg_head file line,
        ")\nleft:  " ++ valS ++ "\nright: " ++ targetS ++ "\n" ++ ctx,
        by simp [msg_add_above, String.append_assoc]; try rfl⟩,
      ⟨msg_head file line ++ "`" ++ vstr ++ "` was greater than `" ++ tstr ++ "` + " ++ epsS
          ++ ")\n", "\n" ++ ctx, by simp [msg_add_above, String.append_assoc]; try rfl⟩⟩
  · intro vstr tstr epsS valS targetS ctx
    exact ⟨⟨msg_head file line,
        "\nleft:  " ++ valS ++ "\nright: " ++ targetS ++ "\n" ++ ctx,
        by simp [msg_mul_below, String.append_assoc]; try rfl⟩,
      ⟨msg_head file line ++ "`" ++ vstr ++ "` was less than (1 ± " ++ epsS ++ ") * `"
          ++ tstr ++ "`\n", "\n" ++ ctx, by simp [msg_mul_below, String.append_assoc]; try rfl⟩⟩
  · intro vstr tstr epsS valS targetS ctx
    exact ⟨⟨msg_head file line,
        "\nleft:  " ++ valS ++ "\nright: " ++ targetS ++ "\n" ++ ctx,
        by simp [msg_mul_above, String.append_assoc]; try rfl⟩,
      ⟨msg_head file line ++ "`" ++ vstr ++ "` was greater than (1 ± " ++ epsS ++ ") * `"
          ++ tstr ++ "`\n", "\n" ++ ctx, by simp [msg_mul_above, String.append_assoc]; try rfl⟩⟩

/-- Witness for C9: the NaN-tolerance failure of the additive check at
a concrete call site carries a message containing `a.rs:7` and ending
with the context `CTX`. -/
theorem C9_failure_messages_witness :
    ContainsStr (msg_eps_nan "a.rs" 7 (F.display F.nan) "CTX") ("a.rs" ++ ":" ++ toString 7)
    ∧ EndsWith (msg_eps_nan "a.rs" 7 (F.display F.nan) "CTX") "CTX" :=
  (C9_failure_messages "a.rs" 7).1 (F.fin 1) "m" (F.fin 1) "t" F.nan "CTX"
    ⟨Kind.invalidTolerance, msg_eps_nan "a.rs" 7 (F.display F.nan) "CTX"⟩ rfl

/-- C6: each `assert_within!` arm dispatches on the sigil — `+` expands
to a call of an `assert_within_add_impl` path and `~` to an
`assert_within_mul_impl` path — passing the stringified measurement and
target expressions and the formatted trailing arguments (empty when
absent).  However, the emitted callee path is
`$crate::test_utils::assert_within_add_impl` (resp. `..._mul_impl`),
and the crate has no `test_utils` module (the impl functions live at
the crate root), so the path the macro emits does not resolve. -/
theorem C6_macro_dispatch (val_src target_src : String) (fmt_args : Option String) :
    ((assert_within_expand Sigil.plus val_src target_src fmt_args).callee_path
        = ["test_utils", "assert_within_add_impl"]
      ∧ (assert_within_expand Sigil.tilde val_src target_src fmt_args).callee_path
        = ["test_utils", "assert_within_mul_impl"])
    ∧ (path_resolves (assert_within_expand Sigil.plus val_src target_src fmt_args).callee_path
        = false
      ∧ path_resolves (assert_within_expand Sigil.tilde val_src target_src fmt_args).callee_path
        = false
      ∧ path_resolves ["assert_within_add_impl"] = true
      ∧ path_resolves ["assert_within_mul_impl"] = true)
    ∧ ((assert_within_expand Sigil.plus val_src target_src fmt_args).val_str = val_src
      ∧ (assert_within_expand Sigil.plus val_src target_src fmt_args).target_str = target_src
      ∧ (assert_within_expand Sigil.plus val_src target_src fmt_args).context = fmt_args.getD ""
      ∧ (assert_within_expand Sigil.tilde val_src target_src fmt_args).val_str = val_src
      ∧ (assert_within_expand Sigil.tilde val_src target_src fmt_args).target_str = target_src
      ∧ (assert_within_expand Sigil.tilde val_src target_src fmt_args).context
          = fmt_args.getD "") := by
  refine ⟨⟨rfl, rfl⟩, ⟨?_, ?_, by decide, by decide⟩, rfl, rfl, rfl, rfl, rfl, rfl⟩
  · simp [assert_within_expand, path_resolves, crate_modules]
  · simp [assert_within_expand, path_resolves, crate_modules]
